import Mathlib

/-!
# Verification of the question framework (`app/domain`)

A shallow embedding of the repository's core:

* `ParamsDict` — the read-tracking wrapper over a raw parameter mapping
  (`app/domain/questions.py`, class `ParamsDict`).
* `Params.init` — the dual-mode constructor of the abstract `Params` base
  (`Params.__init__`): validate mode for a non-empty mapping, generate mode
  otherwise.  Python's mutable `self` is made explicit: the state of the
  object under construction is threaded through, and an exception carries
  the state the object had when the exception was raised.
* `ExampleParams._validate` / `ExampleParams._generate` — the one concrete
  parameter bundle, translated statement by statement from the source.
* `RegistryDict.setItem`, `Question.init_subclass`,
  `Question.get_question_class` — the conflict-checked registry.

Python exceptions are modelled by the inductive `QErr`; Python's `%` on
`int` (sign follows the divisor, `ZeroDivisionError` on a zero divisor) is
modelled by `pymod` via `Int.fmod`.
-/

/-- A primitive parameter value: the repository only ever stores integers,
but a mapping may carry any primitive (a non-integer fails `validate_int`). -/
inductive Value where
  | int (i : Int)
  | str (s : String)
deriving DecidableEq

/-- A raw parameter mapping (a Python `dict` with text keys): an
association list with at most one binding per key. -/
abbrev PMap := List (String × Value)

/-- The exceptions the code can raise.  `questionMissingParams`,
`questionIrrelevantParams`, `questionParamError` and `questionError` stand
for the classes imported from `app.domain.exceptions` (the module is not in
the sources; only the raise sites are, all under `src/`); `valueError`,
`keyError`, `zeroDivisionError` and `attributeError` are the Python
builtins raised by the registry key check, `dict` lookup, `%` with a zero
divisor, and reading an unset attribute. -/
inductive QErr where
  | questionMissingParams (msg : String)
  | questionIrrelevantParams (keys : Finset String)
  | questionParamError (msg : String)
  | questionError (msg : String)
  | valueError (msg : String)
  | keyError (key : String)
  | zeroDivisionError
  | attributeError (name : String)
deriving DecidableEq

deriving instance DecidableEq for Except

/-- Python `%` on integers: raises `ZeroDivisionError` on a zero divisor,
otherwise the remainder takes the sign of the divisor (`Int.fmod`). -/
def pymod (a b : Int) : Except QErr Int :=
  if b = 0 then .error .zeroDivisionError else .ok (Int.fmod a b)

/-- `ParamsDict` (called TrackedParameterView in the spec): an immutable
copy of the input mapping plus the set of keys that have been read. -/
structure ParamsDict where
  _params : PMap
  _accessed : Finset String
deriving DecidableEq

/-- `ParamsDict.__init__`: copy the mapping, start with nothing accessed. -/
def ParamsDict.mk' (params : PMap) : ParamsDict :=
  { _params := params, _accessed := ∅ }

/-- `ParamsDict.get`: raise `QuestionMissingParams` if the key is absent,
otherwise mark the key accessed and return its value (state-passing: the
updated view is returned alongside the value). -/
def ParamsDict.get (d : ParamsDict) (key : String) : Except QErr (Value × ParamsDict) :=
  match d._params.lookup key with
  | none => .error (.questionMissingParams ("Missing required param: " ++ key))
  | some v => .ok (v, { d with _accessed := insert key d._accessed })

/-- `ParamsDict.get_unused`: the keys of the mapping minus the accessed set. -/
def ParamsDict.get_unused (d : ParamsDict) : Finset String :=
  (d._params.map Prod.fst).toFinset \ d._accessed

/-- Modelled from the spec: `validate_int` from `app.domain.validators`
(imported by `questions.py` but the module is not under the sources).  Per
the spec's error taxonomy, a value "of the wrong primitive type" is a
parameter domain error; on an integer the validator returns it. -/
def validate_int : Value → Except QErr Int
  | .int i => .ok i
  | .str _ => .error (.questionParamError "value must be an int")

/-- The attribute state of an `ExampleParams` object under construction:
each of `m`, `n` is either unset (`none`) or assigned. -/
structure ExSelf where
  m : Option Int := none
  n : Option Int := none
deriving DecidableEq

/-- `ExampleParams._validate`, statement by statement:
`self.m = validate_int(params.get("m"))`;
`n = validate_int(params.get("n"))`;
`if not (n % self.m != 0) and (self.m % n == 0): raise QuestionParamError`
(Python `and` short-circuits: `self.m % n` is evaluated only when
`n % self.m == 0`); `self.n = n`.  An error carries the attribute state the
object had when the exception was raised. -/
def ExampleParams._validate (self : ExSelf) (d : ParamsDict) :
    Except (QErr × ExSelf) (ExSelf × ParamsDict) :=
  match d.get "m" with
  | .error e => .error (e, self)
  | .ok (vm, d1) =>
    match validate_int vm with
    | .error e => .error (e, self)
    | .ok mv =>
      let self1 := { self with m := some mv }
      match d1.get "n" with
      | .error e => .error (e, self1)
      | .ok (vn, d2) =>
        match validate_int vn with
        | .error e => .error (e, self1)
        | .ok nv =>
          match pymod nv mv with
          | .error e => .error (e, self1)
          | .ok r1 =>
            if r1 = 0 then
              match pymod mv nv with
              | .error e => .error (e, self1)
              | .ok r2 =>
                if r2 = 0 then
                  .error (.questionParamError "n and m cannt divide one another", self1)
                else .ok ({ self1 with n := some nv }, d2)
            else .ok ({ self1 with n := some nv }, d2)

/-- `ExampleParams._generate`: `self.m = 75; self.n = 12`. -/
def ExampleParams._generate (self : ExSelf) : ExSelf :=
  { self with m := some 75, n := some 12 }

/-- `Params.__init__`, generic over the subtype's state type and its
`_validate`/`_generate` overrides.  A truthy (non-`None`, non-empty)
mapping selects validate mode: wrap it in a fresh `ParamsDict`, run
`_validate`, then raise `QuestionIrrelevantParams` naming the unused keys
if any key was never read.  Otherwise run `_generate`. -/
def Params.init {σ : Type}
    (validate : σ → ParamsDict → Except (QErr × σ) (σ × ParamsDict))
    (generate : σ → σ) (fresh : σ) (params : Option PMap) :
    Except (QErr × σ) σ :=
  match params with
  | none => .ok (generate fresh)
  | some ps =>
    if ps.isEmpty then .ok (generate fresh)
    else
      match validate fresh (ParamsDict.mk' ps) with
      | .error e => .error e
      | .ok (self, d) =>
        let unused := d.get_unused
        if unused = ∅ then .ok self
        else .error (.questionIrrelevantParams unused, self)

/-- `ExampleParams(params)`: the `Params` constructor instantiated with the
`ExampleParams` overrides, starting from an attribute-less object. -/
def ExampleParams.new (params : Option PMap) : Except (QErr × ExSelf) ExSelf :=
  Params.init ExampleParams._validate ExampleParams._generate {} params

/-- The attribute state of a constructed `Example` question: its owned
params object and the derived field `y`. -/
structure ExampleSelf where
  params : ExSelf
  y : Int
deriving DecidableEq

/-- `Example(params)`: `Question.__init__` delegates to
`Example._internal_setup`, which sets `self.params = ExampleParams(params)`
(propagating any exception untouched) and then
`self.y = self.params.m + self.params.n` (reading an unset attribute would
raise `AttributeError`). -/
def Example.new (params : Option PMap) : Except (QErr × ExSelf) ExampleSelf :=
  match ExampleParams.new params with
  | .error e => .error e
  | .ok p =>
    match p.m, p.n with
    | some mv, some nv => .ok { params := p, y := mv + nv }
    | none, _ => .error (.attributeError "m", p)
    | some _, none => .error (.attributeError "n", p)

/-- The closed `Topic` enumeration. -/
inductive Topic where
  | CALCULUS
  | ALGEBRA
  | LINEAR_ALGEBRA
  | NUMBER_THEORY
deriving DecidableEq

/-- `Topic.value`: the string payload of each enum member. -/
def Topic.value : Topic → String
  | .CALCULUS => "calculus"
  | .ALGEBRA => "algebra"
  | .LINEAR_ALGEBRA => "linear_algebra"
  | .NUMBER_THEORY => "number_theory"

/-- A concrete `Question` subtype as the registry stores it: its class
name and its `topic` class variable (a class reference, not an instance). -/
structure QuestionClass where
  name : String
  topic : Topic
deriving DecidableEq

/-- The registry: a `dict` keyed by `topic_name`, in insertion order. -/
abbrev Registry := List (String × QuestionClass)

/-- `RegistryDict.__setitem__`: recompute the expected `topic_classname`
key, raise `ValueError` on a mismatch, raise `QuestionError` if the key is
already present (never overwrite), otherwise insert. -/
def RegistryDict.setItem (reg : Registry) (key : String) (q : QuestionClass) :
    Except QErr Registry :=
  let expected := q.topic.value ++ "_" ++ q.name
  if key ≠ expected then
    .error (.valueError ("Registry key " ++ key ++ " must match format topic_classname: expected " ++ expected))
  else if (reg.lookup key).isSome then
    .error (.questionError ("Cannot register " ++ q.name ++ ": a question with topic " ++ q.topic.value ++ " and name " ++ q.name ++ " is already registered"))
  else
    .ok (reg ++ [(key, q)])

/-- `Question.__init_subclass__` on a concrete subtype with a valid
`topic`: register the class under the `topic_classname` key. -/
def Question.init_subclass (reg : Registry) (q : QuestionClass) : Except QErr Registry :=
  RegistryDict.setItem reg (q.topic.value ++ "_" ++ q.name) q

/-- `Question.get_question_class`: look `topic_name` up in the registry;
a `dict` lookup of an absent key raises `KeyError`. -/
def Question.get_question_class (reg : Registry) (topic : Topic) (name : String) :
    Except QErr QuestionClass :=
  match reg.lookup (topic.value ++ "_" ++ name) with
  | some q => .ok q
  | none => .error (.keyError (topic.value ++ "_" ++ name))

/-! ## Helper lemmas on association-list lookup -/

/-- A successful lookup means the key occurs among the keys of the list. -/
theorem lookup_mem_keys {β : Type} {l : List (String × β)} {k : String} {v : β}
    (h : l.lookup k = some v) : k ∈ l.map Prod.fst := by
  induction l with
  | nil => simp [List.lookup] at h
  | cons p t ih =>
    obtain ⟨a, b⟩ := p
    by_cases hk : k = a
    · simp [hk]
    · simp only [List.lookup, beq_false_of_ne hk] at h
      simp only [List.map_cons, List.mem_cons]
      exact Or.inr (ih h)

/-- Appending a binding for a key absent from the list makes lookup of that
key find the appended binding. -/
theorem lookup_append_last {β : Type} {l : List (String × β)} {k : String} {q : β}
    (h : l.lookup k = none) : (l ++ [(k, q)]).lookup k = some q := by
  induction l with
  | nil => simp [List.lookup]
  | cons p t ih =>
    obtain ⟨a, b⟩ := p
    rw [List.cons_append]
    cases hbeq : (k == a) with
    | true =>
      simp only [List.lookup, hbeq] at h
      exact absurd h (by simp)
    | false =>
      simp only [List.lookup, hbeq] at h ⊢
      exact ih h

/-! ## Claims -/

/-- C1: for every non-empty mapping passed to the `Params` constructor, if
after `_validate` the view's unused-key set is non-empty, construction
fails with `QuestionIrrelevantParams` naming exactly the unused keys; in
particular `ExampleParams` on `m=3, n=9, extra=1` fails naming `extra`. -/
theorem C1_irrelevant_params_hard_rejection :
    (∀ (ps : PMap) (self : ExSelf) (d : ParamsDict),
        ps.isEmpty = false →
        ExampleParams._validate {} (ParamsDict.mk' ps) = .ok (self, d) →
        d.get_unused ≠ ∅ →
        ExampleParams.new (some ps) =
          .error (.questionIrrelevantParams d.get_unused, self)) ∧
    ExampleParams.new (some [("m", .int 3), ("n", .int 9), ("extra", .int 1)]) =
      .error (.questionIrrelevantParams {"extra"}, { m := some 3, n := some 9 }) := by
  refine ⟨?_, by decide⟩
  intro ps self d hps hval hunused
  simp [ExampleParams.new, Params.init, hps, hval, hunused]

/-- Witness for C1: the general statement applied to the concrete mapping
`m=3, n=9, extra=1`, whose tracked view ends with `m`, `n` read. -/
theorem C1_witness :
    ExampleParams.new (some [("m", .int 3), ("n", .int 9), ("extra", .int 1)]) =
      .error (.questionIrrelevantParams
          (ParamsDict.get_unused
            ⟨[("m", .int 3), ("n", .int 9), ("extra", .int 1)],
             insert "n" (insert "m" ∅)⟩),
        { m := some 3, n := some 9 }) :=
  C1_irrelevant_params_hard_rejection.1
    [("m", .int 3), ("n", .int 9), ("extra", .int 1)]
    { m := some 3, n := some 9 }
    ⟨[("m", .int 3), ("n", .int 9), ("extra", .int 1)], insert "n" (insert "m" ∅)⟩
    (by decide) (by decide) (by decide)

/-- C2: `ExampleParams` on `m=75, n=12` succeeds with fields `m = 75`,
`n = 12`, and constructing the owning `Example` question yields the
derived field `y = 87`. -/
theorem C2_scenario_A_valid_construction :
    ExampleParams.new (some [("m", .int 75), ("n", .int 12)]) =
      .ok { m := some 75, n := some 12 } ∧
    Example.new (some [("m", .int 75), ("n", .int 12)]) =
      .ok { params := { m := some 75, n := some 12 }, y := 87 } := by
  exact ⟨by decide, by decide⟩

/-- C4: generate mode (no mapping, or an empty one) never fails and yields
the fixed defaults `m = 75`, `n = 12`; those defaults are accepted by
`ExampleParams`'s own validation routine (the only concrete subtype). -/
theorem C4_generate_mode_defaults_valid :
    ExampleParams.new none = .ok { m := some 75, n := some 12 } ∧
    ExampleParams.new (some []) = .ok { m := some 75, n := some 12 } ∧
    ExampleParams.new (some [("m", .int 75), ("n", .int 12)]) =
      .ok { m := some 75, n := some 12 } := by
  exact ⟨by decide, by decide, by decide⟩

/-- C5: construction is deterministic — the embedding of both modes is a
pure function of the supplied mapping, so an accepted mapping determines
the fields uniquely, and generate mode yields the fixed defaults on every
invocation. -/
theorem C5_deterministic_construction :
    (∀ (ps : Option PMap) (s1 s2 : ExSelf),
        ExampleParams.new ps = .ok s1 → ExampleParams.new ps = .ok s2 →
        s1 = s2) ∧
    (∀ ps : Option PMap, ps = none ∨ ps = some ([] : PMap) →
        ExampleParams.new ps = .ok { m := some 75, n := some 12 }) := by
  constructor
  · intro ps s1 s2 h1 h2
    rw [h1] at h2
    exact Except.ok.inj h2
  · rintro ps (rfl | rfl) <;> decide

/-- Witness for C5: both parts at concrete inputs — the mapping
`m=75, n=12` determines its fields, and generate mode on `none` yields the
defaults. -/
theorem C5_witness :
    ExampleParams.new none = .ok { m := some 75, n := some 12 } :=
  C5_deterministic_construction.2 none (Or.inl rfl)

/-- Counterexample to C3 as stated: on `m=5, n=5` the validation routine
raises the domain error, yet the field `m` has already been assigned
(value 5) on the object under construction — so it is not true that "no
instance field is assigned before the failure". -/
theorem C3_counterexample_field_assigned_before_failure :
    ExampleParams.new (some [("m", .int 5), ("n", .int 5)]) =
      .error (.questionParamError "n and m cannt divide one another",
              { m := some 5, n := none }) ∧
    ({ m := some 5, n := none } : ExSelf).m ≠ none := by
  exact ⟨by decide, by decide⟩

/-- C3 (amended): a failed construction exposes no constructed instance to
the caller — every `ExampleParams` failure propagates untouched through
`Example`'s constructor, so the Question is left unconstructed — and a
domain-error failure of the validation routine occurs before the field `n`
is assigned (though `m` may already have been assigned). -/
theorem C3_no_observable_partial_instance :
    (∀ (ps : Option PMap) (e : QErr × ExSelf),
        ExampleParams.new ps = .error e → Example.new ps = .error e) ∧
    (∀ (d : ParamsDict) (msg : String) (s : ExSelf),
        ExampleParams._validate {} d = .error (.questionParamError msg, s) →
        s.n = none) := by
  constructor
  · intro ps e h
    simp [Example.new, h]
  · intro d msg s h
    unfold ExampleParams._validate at h
    repeat' split at h
    all_goals simp_all
    all_goals obtain ⟨-, rfl⟩ := h
    all_goals rfl

/-- Witness for C3 (amended): the propagation part applied to the failing
mapping `m=5, n=5`. -/
theorem C3_witness :
    Example.new (some [("m", .int 5), ("n", .int 5)]) =
      .error (.questionParamError "n and m cannt divide one another",
              { m := some 5, n := none }) :=
  C3_no_observable_partial_instance.1
    (some [("m", .int 5), ("n", .int 5)])
    (.questionParamError "n and m cannt divide one another",
     { m := some 5, n := none })
    (by decide)

/-- C10: validate mode is not total over integer inputs — `m=0, n=5`
evaluates `n % m` with a zero divisor and raises `ZeroDivisionError`
(outside the parameter-error taxonomy), and likewise any mapping with
`n = 0` and `m` nonzero reaches `m % n` with a zero divisor, because
`n % m = 0 % m = 0` makes the short-circuit `and` evaluate `m % n`. -/
theorem C10_zero_divisor_unhandled :
    ExampleParams.new (some [("m", .int 0), ("n", .int 5)]) =
      .error (.zeroDivisionError, { m := some 0, n := none }) ∧
    (∀ m : Int, m ≠ 0 →
      ExampleParams.new (some [("m", .int m), ("n", .int 0)]) =
        .error (.zeroDivisionError, { m := some m, n := none })) := by
  refine ⟨by decide, ?_⟩
  intro m hm
  have hval : ExampleParams._validate {}
      (ParamsDict.mk' [("m", .int m), ("n", .int 0)]) =
      .error (.zeroDivisionError, { m := some m, n := none }) := by
    simp [ExampleParams._validate, ParamsDict.mk', ParamsDict.get, List.lookup,
          validate_int, pymod, hm, Int.zero_fmod]
  simp [ExampleParams.new, Params.init, hval]

/-- Witness for C10: the general `n = 0` part applied at `m = 7`. -/
theorem C10_witness :
    ExampleParams.new (some [("m", .int 7), ("n", .int 0)]) =
      .error (.zeroDivisionError, { m := some 7, n := none }) :=
  C10_zero_divisor_unhandled.2 7 (by decide)

/-- Keys built as `topic.value ++ "_" ++ name` determine the topic: the
four topic strings have pairwise distinct lengths. -/
theorem topic_key_inj {t1 t2 : Topic} {name : String}
    (h : t1.value ++ "_" ++ name = t2.value ++ "_" ++ name) : t1 = t2 := by
  cases t1 <;> cases t2 <;> first
    | rfl
    | (exfalso
       have hl := congrArg String.length h
       simp only [String.length_append, Topic.value,
         show ("calculus" : String).length = 8 from rfl,
         show ("algebra" : String).length = 7 from rfl,
         show ("linear_algebra" : String).length = 14 from rfl,
         show ("number_theory" : String).length = 13 from rfl,
         show ("_" : String).length = 1 from rfl] at hl
       omega)

/-- C6: registering a second concrete subtype under an already-present
`(topic, name)` key raises the duplicate-registration `QuestionError` and
never yields a new registry (the existing binding is untouched), while two
subtypes with the same name but different topics both register. -/
theorem C6_registry_keys_unique :
    (∀ (reg : Registry) (q1 q2 : QuestionClass),
        reg.lookup (q2.topic.value ++ "_" ++ q2.name) = some q1 →
        Question.init_subclass reg q2 =
          .error (.questionError ("Cannot register " ++ q2.name ++
            ": a question with topic " ++ q2.topic.value ++ " and name " ++
            q2.name ++ " is already registered")) ∧
        ∀ reg' : Registry, Question.init_subclass reg q2 ≠ .ok reg') ∧
    (∀ (name : String) (t1 t2 : Topic), t1 ≠ t2 →
        Question.init_subclass [] ⟨name, t1⟩ =
          .ok [(t1.value ++ "_" ++ name, ⟨name, t1⟩)] ∧
        Question.init_subclass [(t1.value ++ "_" ++ name, ⟨name, t1⟩)] ⟨name, t2⟩ =
          .ok [(t1.value ++ "_" ++ name, ⟨name, t1⟩),
               (t2.value ++ "_" ++ name, ⟨name, t2⟩)]) := by
  constructor
  · intro reg q1 q2 h
    constructor
    · simp [Question.init_subclass, RegistryDict.setItem, h]
    · intro reg' hok
      simp [Question.init_subclass, RegistryDict.setItem, h] at hok
  · intro name t1 t2 hne
    have hk : (t2.value ++ "_" ++ name) ≠ (t1.value ++ "_" ++ name) :=
      fun h => hne (topic_key_inj h).symm
    constructor
    · simp [Question.init_subclass, RegistryDict.setItem, List.lookup]
    · simp [Question.init_subclass, RegistryDict.setItem, List.lookup,
            beq_false_of_ne hk]

/-- Witness for C6: `Example` under algebra and then under calculus both
register from the empty registry. -/
theorem C6_witness :
    Question.init_subclass [] ⟨"Example", .ALGEBRA⟩ =
      .ok [(Topic.ALGEBRA.value ++ "_" ++ "Example", ⟨"Example", .ALGEBRA⟩)] ∧
    Question.init_subclass
        [(Topic.ALGEBRA.value ++ "_" ++ "Example", ⟨"Example", .ALGEBRA⟩)]
        ⟨"Example", .CALCULUS⟩ =
      .ok [(Topic.ALGEBRA.value ++ "_" ++ "Example", ⟨"Example", .ALGEBRA⟩),
           (Topic.CALCULUS.value ++ "_" ++ "Example", ⟨"Example", .CALCULUS⟩)] :=
  C6_registry_keys_unique.2 "Example" .ALGEBRA .CALCULUS (by decide)

/-- C7: a successful `get` marks exactly the requested key as read, leaves
the underlying mapping unchanged, and only a key present in the mapping
can be marked; after reading `a`, `b` out of a supplied `a`, `b`, `c` the
unused set equals the singleton `c`. -/
theorem C7_tracked_view_marks_and_unused :
    (∀ (d : ParamsDict) (k : String) (v : Value) (d' : ParamsDict),
        d.get k = .ok (v, d') →
        d'._accessed = insert k d._accessed ∧
        d'._params = d._params ∧
        k ∈ d._params.map Prod.fst) ∧
    (ParamsDict.mk' [("a", .int 1), ("b", .int 2), ("c", .int 3)]).get "a" =
      .ok (.int 1,
        ⟨[("a", .int 1), ("b", .int 2), ("c", .int 3)], insert "a" ∅⟩) ∧
    ParamsDict.get ⟨[("a", .int 1), ("b", .int 2), ("c", .int 3)], insert "a" ∅⟩ "b" =
      .ok (.int 2,
        ⟨[("a", .int 1), ("b", .int 2), ("c", .int 3)], insert "b" (insert "a" ∅)⟩) ∧
    ParamsDict.get_unused
      ⟨[("a", .int 1), ("b", .int 2), ("c", .int 3)], insert "b" (insert "a" ∅)⟩ =
      {"c"} := by
  refine ⟨?_, by decide, by decide, by decide⟩
  intro d k v d' h
  unfold ParamsDict.get at h
  cases hl : d._params.lookup k with
  | none => rw [hl] at h; exact absurd h (by simp)
  | some w =>
    rw [hl] at h
    simp only [Except.ok.injEq, Prod.mk.injEq] at h
    obtain ⟨rfl, rfl⟩ := h
    exact ⟨rfl, rfl, lookup_mem_keys hl⟩

/-- Witness for C7: the marking part applied to reading `a` out of the
fresh view over `a`, `b`, `c`. -/
theorem C7_witness :
    (⟨[("a", .int 1), ("b", .int 2), ("c", .int 3)], insert "a" ∅⟩ : ParamsDict)._accessed =
      insert "a" (ParamsDict.mk' [("a", .int 1), ("b", .int 2), ("c", .int 3)])._accessed ∧
    (⟨[("a", .int 1), ("b", .int 2), ("c", .int 3)], insert "a" ∅⟩ : ParamsDict)._params =
      (ParamsDict.mk' [("a", .int 1), ("b", .int 2), ("c", .int 3)])._params ∧
    "a" ∈ (ParamsDict.mk' [("a", .int 1), ("b", .int 2), ("c", .int 3)])._params.map Prod.fst :=
  C7_tracked_view_marks_and_unused.1
    (ParamsDict.mk' [("a", .int 1), ("b", .int 2), ("c", .int 3)]) "a" (.int 1)
    ⟨[("a", .int 1), ("b", .int 2), ("c", .int 3)], insert "a" ∅⟩ (by decide)

/-- C8: `get` returns the stored value when the key is present and fails
with `QuestionMissingParams` when it is absent; on success the key is
marked, and reading the same key again succeeds and keeps the view
unchanged (idempotent marking). -/
theorem C8_get_value_or_missing_idempotent :
    (∀ (d : ParamsDict) (k : String) (v : Value),
        d._params.lookup k = some v →
        d.get k = .ok (v, ⟨d._params, insert k d._accessed⟩)) ∧
    (∀ (d : ParamsDict) (k : String),
        d._params.lookup k = none →
        d.get k = .error (.questionMissingParams ("Missing required param: " ++ k))) ∧
    (∀ (d : ParamsDict) (k : String) (v : Value) (d' : ParamsDict),
        d.get k = .ok (v, d') → k ∈ d'._accessed ∧ d'.get k = .ok (v, d')) := by
  refine ⟨?_, ?_, ?_⟩
  · intro d k v h
    unfold ParamsDict.get
    rw [h]
  · intro d k h
    unfold ParamsDict.get
    rw [h]
  · intro d k v d' h
    unfold ParamsDict.get at h
    cases hl : d._params.lookup k with
    | none => rw [hl] at h; exact absurd h (by simp)
    | some w =>
      rw [hl] at h
      simp only [Except.ok.injEq, Prod.mk.injEq] at h
      obtain ⟨rfl, rfl⟩ := h
      constructor
      · exact Finset.mem_insert_self k d._accessed
      · simp [ParamsDict.get, hl, Finset.insert_idem]

/-- Witness for C8: the idempotence part applied to reading `m` twice out
of a one-key mapping. -/
theorem C8_witness :
    "m" ∈ (⟨[("m", .int 3)], insert "m" ∅⟩ : ParamsDict)._accessed ∧
    ParamsDict.get ⟨[("m", .int 3)], insert "m" ∅⟩ "m" =
      .ok (.int 3, ⟨[("m", .int 3)], insert "m" ∅⟩) :=
  C8_get_value_or_missing_idempotent.2.2
    (ParamsDict.mk' [("m", .int 3)]) "m" (.int 3)
    ⟨[("m", .int 3)], insert "m" ∅⟩ (by decide)

/-- C9: after a successful registration, lookup by the same `(topic, name)`
returns exactly the registered type; lookup of an unregistered pair fails
with the `KeyError` of the `dict` (the spec's LookupNotFound). -/
theorem C9_lookup_registered_or_not_found :
    (∀ (reg reg' : Registry) (q : QuestionClass),
        Question.init_subclass reg q = .ok reg' →
        Question.get_question_class reg' q.topic q.name = .ok q) ∧
    (∀ (reg : Registry) (t : Topic) (n : String),
        reg.lookup (t.value ++ "_" ++ n) = none →
        Question.get_question_class reg t n =
          .error (.keyError (t.value ++ "_" ++ n))) := by
  constructor
  · intro reg reg' q h
    unfold Question.init_subclass RegistryDict.setItem at h
    simp only [ne_eq, eq_self_iff_true, not_true, if_false, ite_false] at h
    split at h
    · exact absurd h (by simp)
    · rename_i hc
      have hnone := Option.not_isSome_iff_eq_none.mp hc
      simp only [Except.ok.injEq] at h
      subst h
      unfold Question.get_question_class
      rw [lookup_append_last hnone]
  · intro reg t n h
    unfold Question.get_question_class
    rw [h]

/-- Witness for C9: registering `Example` under number theory into the
empty registry and looking it up returns the registered class. -/
theorem C9_witness :
    Question.get_question_class
        [("number_theory_Example", ⟨"Example", .NUMBER_THEORY⟩)]
        .NUMBER_THEORY "Example" =
      .ok ⟨"Example", .NUMBER_THEORY⟩ :=
  C9_lookup_registered_or_not_found.1 []
    [("number_theory_Example", ⟨"Example", .NUMBER_THEORY⟩)]
    ⟨"Example", .NUMBER_THEORY⟩ (by decide)
